import Mathlib

/-!
Verification of the declarative query-expression subsystem of the `office`
repository: attribute descriptors, the boolean-expression algebra
(`office/attribute.py`) and the query compiler plus bulk-action contexts
(`office/query.py`), shallowly embedded in Lean.

The Remote Query Builder is modelled as a trace of primitive builder events;
the compiler functions below mirror the Python methods line by line and
return the list of events they issue together with the exception they raise,
if any.
-/

set_option maxHeartbeats 1000000

namespace Office

/-- The comparator functions of `O365.utils.utils.Query` used by the repository
(`utils.Query.equals`, `.unequal`, `.less`, `.less_equal`, `.greater`,
`.greater_equal`, `.contains`, `.startswith`, `.endswith`). -/
inductive QueryFunc where
  | equals
  | unequal
  | less
  | less_equal
  | greater
  | greater_equal
  | contains
  | startswith
  | endswith
  deriving DecidableEq, Repr

/-- `utils.ChainOperator`: the logical connective of a clause. -/
inductive ChainOperator where
  | and_op
  | or_op
  deriving DecidableEq, Repr

/-- Python values that appear as comparison arguments (`Any` in the source). -/
inductive Value where
  | bool (b : Bool)
  | str (s : String)
  | int (n : Int)
  | null
  deriving DecidableEq, Repr

/-- The Python exceptions raised by the code under verification. -/
inductive PyError where
  | attributeError (msg : String)
  | valueError (msg : String)
  | typeError (msg : String)
  deriving DecidableEq, Repr

/-- `attribute.Direction`: the directions an order_by clause can go in
(`ASCENDING = "asc"`, `DESCENDING = "desc"`). -/
inductive Direction where
  | ascending
  | descending
  deriving DecidableEq, Repr

/-- The kind of a concrete filterable attribute class: plain `Attribute`
(metaclass `BaseAttributeMeta`), `BooleanAttribute` (metaclass
`BooleanAttributeMeta`) or `EnumerativeAttribute` (metaclass
`EnumerativeAttributeMeta`). -/
inductive AttrKind where
  | plain
  | boolean
  | enumerative
  deriving DecidableEq, Repr

/-- A concrete subclass of `FilterableAttribute`: its class-level `name`
and which metaclass family it belongs to. -/
structure AttrClass where
  name : String
  kind : AttrKind
  deriving DecidableEq, Repr

/-- `attribute.BooleanExpression`: `(attr, func, arg, negated)`; `__init__`
sets `negated = False`. -/
structure BooleanExpression where
  attr : String
  func : QueryFunc
  arg : Value
  negated : Bool
  deriving DecidableEq, Repr

/-- `BooleanExpression.__init__(attribute_name, query_func, argument)`:
the `negated` flag starts out `False`. -/
def mkBooleanExpression (attribute_name : String) (query_func : QueryFunc)
    (argument : Value) : BooleanExpression :=
  ⟨attribute_name, query_func, argument, false⟩

/-- `BooleanExpression.logical_opposites`, the six-entry dictionary, as a
partial map: comparators outside the table are sent to `none`. -/
def logical_opposites : QueryFunc → Option QueryFunc
  | QueryFunc.equals => some QueryFunc.unequal
  | QueryFunc.unequal => some QueryFunc.equals
  | QueryFunc.greater => some QueryFunc.less_equal
  | QueryFunc.less_equal => some QueryFunc.greater
  | QueryFunc.less => some QueryFunc.greater_equal
  | QueryFunc.greater_equal => some QueryFunc.less
  | _ => none

/-- `BooleanExpression.negate`: if the comparator is in `logical_opposites`
replace it by its opposite, otherwise toggle the `negated` flag.  The Python
method mutates `self` and returns it; here it returns the updated record. -/
def BooleanExpression.negate (e : BooleanExpression) : BooleanExpression :=
  match logical_opposites e.func with
  | some f => { e with func := f }
  | none => { e with negated := !e.negated }

/-- `BooleanAttributeMeta.__invert__`: `~A` for a Boolean-kind attribute class
builds `BooleanExpression(name, equals, False)` directly. -/
def booleanAttributeInvert (a : AttrClass) : BooleanExpression :=
  mkBooleanExpression a.name QueryFunc.equals (Value.bool false)

/-- `BooleanAttributeMeta._resolve`: a bare Boolean-kind attribute class
resolves to `BooleanExpression(name, equals, True)`. -/
def booleanAttributeResolve (a : AttrClass) : BooleanExpression :=
  mkBooleanExpression a.name QueryFunc.equals (Value.bool true)

/-- Semantics of the equality comparators on a boolean field value, used to
state behavioural equivalence of expressions over Boolean-kind attributes;
comparators other than equals/unequal have no boolean-field meaning here. -/
def evalBoolComparator : QueryFunc → Bool → Bool → Option Bool
  | QueryFunc.equals, v, a => some (v == a)
  | QueryFunc.unequal, v, a => some (v != a)
  | _, _, _ => none

/-- Evaluate a `BooleanExpression` whose argument is a boolean against a
boolean field value `v`; the `negated` flag complements the outcome. -/
def BooleanExpression.evalBool (e : BooleanExpression) (v : Bool) : Option Bool :=
  match e.arg with
  | Value.bool a => (evalBoolComparator e.func v a).map (fun b => xor b e.negated)
  | _ => none

/-- A primitive call issued on the Remote Query Builder (`self._query`), in
the order the compiler issues them. -/
inductive BuilderEvent where
  | clear_filters
  | clear_order
  | on_attribute (name : String)
  | comparator (func : QueryFunc) (arg : Value)
  | negate
  | chain (op : ChainOperator)
  | open_group
  | close_group
  | order_by (name : String) (ascending : Bool)
  | order_by_raw (s : String)
  deriving DecidableEq, Repr

/-- An object that can appear as an operand of `&`/`|` or as a side of a
`BooleanExpressionClause`: a (possibly unresolved) attribute class, a leaf
`BooleanExpression`, or a `BooleanExpressionClause` with its two sides. -/
inductive Element where
  | attrCls (a : AttrClass)
  | expr (e : BooleanExpression)
  | clause (left : Element) (operator : ChainOperator) (right : Element)
  deriving DecidableEq, Repr

/-- `_resolve()` as dispatched by Python: `BooleanAttributeMeta._resolve`
yields the boolean-equals-true expression; `BaseAttributeMeta._resolve`
(plain and enumerative attribute classes) raises `ValueError`;
`BaseExpressionElement._resolve` returns the element itself. -/
def Element.resolve : Element → Except PyError Element
  | Element.attrCls a =>
      if a.kind = AttrKind.boolean then
        Except.ok (Element.expr (booleanAttributeResolve a))
      else
        Except.error (PyError.valueError
          "Cannot resolve an object of this type without using it as part of a boolean expression.")
  | el => Except.ok el

/-- Python dispatch of `a & b` / `a | b` on expression operands.  When the
left operand is an attribute class, `BaseAttributeMeta.__and__/__or__` runs
`self._resolve() <op> other._resolve()`, resolving BOTH operands (and
propagating the `ValueError` a non-boolean attribute raises); when the left
operand is an expression or clause, `BaseExpressionElement.__and__/__or__`
builds `BooleanExpressionClause(left=self, operator, right=other)` with the
right operand stored as-is, unresolved. -/
def opCombine (op : ChainOperator) (a b : Element) : Except PyError Element :=
  match a with
  | Element.attrCls _ =>
      match Element.resolve a with
      | Except.error e => Except.error e
      | Except.ok l =>
          match Element.resolve b with
          | Except.error e => Except.error e
          | Except.ok r => Except.ok (Element.clause l op r)
  | _ => Except.ok (Element.clause a op b)

/-- `Query._build_boolean_expression`: issue `on_attribute` with the cased
attribute name, then — inside the `_negation` scope when `negated` is set —
the comparator call `expression.func(self._query, expression.arg)`. -/
def buildBooleanExpression (casing : String → String) (e : BooleanExpression) :
    List BuilderEvent :=
  BuilderEvent.on_attribute (casing e.attr)
    :: (if e.negated then
          [BuilderEvent.negate, BuilderEvent.comparator e.func e.arg, BuilderEvent.negate]
        else
          [BuilderEvent.comparator e.func e.arg])

/-- `Query._build_side` together with `Query._build_boolean_expression_clause`
as one structural recursion.  A side that is a Boolean-kind attribute class is
first resolved (`isinstance(side, BooleanAttributeMeta)`); an expression
compiles as a leaf; a clause opens a precedence group, compiles its left side,
issues `chain(operator)`, compiles its right side and closes the group (the
`_precedence_grouping` context manager has no `finally`, so `close_group` is
not issued when a side raises); any other side raises `TypeError`.  Returns
the issued events and the raised exception, if any. -/
def build_side (casing : String → String) : Element → List BuilderEvent × Option PyError
  | Element.attrCls a =>
      if a.kind = AttrKind.boolean then
        (buildBooleanExpression casing (booleanAttributeResolve a), none)
      else
        ([], some (PyError.typeError
          "The sides of a clause must be a BooleanExpression or a BooleanExpressionClause."))
  | Element.expr e => (buildBooleanExpression casing e, none)
  | Element.clause l op r =>
      match build_side casing l with
      | (le, some err) => (BuilderEvent.open_group :: le, some err)
      | (le, none) =>
          match build_side casing r with
          | (re, some err) =>
              (BuilderEvent.open_group :: le ++ BuilderEvent.chain op :: re, some err)
          | (re, none) =>
              (BuilderEvent.open_group :: le
                ++ BuilderEvent.chain op :: re ++ [BuilderEvent.close_group], none)

/-- `Query.where` followed by `Query._build_where_clause`: clear the filter
state, resolve the argument (propagating the `ValueError` of a bare
non-boolean attribute), then compile a leaf or a clause; anything else is a
`TypeError`. -/
def query_where (casing : String → String) (el : Element) :
    List BuilderEvent × Option PyError :=
  match Element.resolve el with
  | Except.error e => ([BuilderEvent.clear_filters], some e)
  | Except.ok (Element.expr e) =>
      (BuilderEvent.clear_filters :: buildBooleanExpression casing e, none)
  | Except.ok (Element.clause l op r) =>
      let (evs, err) := build_side casing (Element.clause l op r)
      (BuilderEvent.clear_filters :: evs, err)
  | Except.ok (Element.attrCls _) =>
      ([BuilderEvent.clear_filters], some (PyError.typeError
        "Argument to the filter clause must be a BooleanExpression or a BooleanExpressionClause."))

/-- Number of `BooleanExpressionClause` nodes in an element tree. -/
def clauseNodes : Element → Nat
  | Element.clause l _ r => 1 + clauseNodes l + clauseNodes r
  | _ => 0

/-- Recognises an `open_group` builder event. -/
def isOpenEvent : BuilderEvent → Bool
  | BuilderEvent.open_group => true
  | _ => false

/-- Recognises a `close_group` builder event. -/
def isCloseEvent : BuilderEvent → Bool
  | BuilderEvent.close_group => true
  | _ => false

/-- Recognises a `chain` builder event. -/
def isChainEvent : BuilderEvent → Bool
  | BuilderEvent.chain _ => true
  | _ => false

/-- Recognises a `negate` builder event. -/
def isNegateEvent : BuilderEvent → Bool
  | BuilderEvent.negate => true
  | _ => false

/-- Recognises a comparator call on the builder. -/
def isComparatorEvent : BuilderEvent → Bool
  | BuilderEvent.comparator _ _ => true
  | _ => false

/-- Whether an element is a bare (unresolved) attribute class. -/
def isUnresolvedAttr : Element → Bool
  | Element.attrCls _ => true
  | _ => false

/-- Attribute lookup on a NonFilterable attribute class (such as
`Message.Attributes.Body`).  Normal class-attribute lookup finds only the
class-level `name`; for every other attribute the lookup falls through to
`NonFilterableMeta.__getattr__`, which raises `AttributeError`. -/
def nonFilterableGetattr (clsName : String) (attr : String) : Except PyError String :=
  if attr = "name" then Except.ok clsName
  else Except.error (PyError.attributeError
    "This attribute cannot be used in the filter/where clause of a query.")

/-- Result of evaluating `C == v` where `C` is a NonFilterable attribute class
and `v` a non-class value.  Python looks special methods up on the metaclass
without consulting `__getattr__`; `NonFilterableMeta` defines no `__eq__`, so
the default identity-based equality applies: a class object is never identical
to the compared value, both sides return NotImplemented, and the comparison
silently evaluates to `False` instead of raising. -/
def nonFilterableEq (_v : Value) : Except PyError Bool :=
  Except.ok false

/-- `FilterableAttribute.contains`, the classmethod building
`BooleanExpression(name, contains, item)`. -/
def FilterableAttribute_contains (cls : AttrClass) (item : Value) : BooleanExpression :=
  mkBooleanExpression cls.name QueryFunc.contains item

/-- `FilterableAttribute.startswith`. -/
def FilterableAttribute_startswith (cls : AttrClass) (text : Value) : BooleanExpression :=
  mkBooleanExpression cls.name QueryFunc.startswith text

/-- `FilterableAttribute.endswith`. -/
def FilterableAttribute_endswith (cls : AttrClass) (text : Value) : BooleanExpression :=
  mkBooleanExpression cls.name QueryFunc.endswith text

/-- Result of evaluating `cls.contains(item)` on a concrete attribute class of
the given kind.  Method lookup on `Attribute`, `BooleanAttribute` and
`EnumerativeAttribute` walks the class hierarchy and finds the classmethod
inherited from `FilterableAttribute` — no subclass or metaclass overrides or
blocks it — so the call succeeds for every kind and never raises. -/
def callContains (cls : AttrClass) (item : Value) : Except PyError BooleanExpression :=
  Except.ok (FilterableAttribute_contains cls item)

/-- Result of evaluating `cls.startswith(text)`: inherited from
`FilterableAttribute` by every attribute kind, never raises. -/
def callStartswith (cls : AttrClass) (text : Value) : Except PyError BooleanExpression :=
  Except.ok (FilterableAttribute_startswith cls text)

/-- Result of evaluating `cls.endswith(text)`: inherited from
`FilterableAttribute` by every attribute kind, never raises. -/
def callEndswith (cls : AttrClass) (text : Value) : Except PyError BooleanExpression :=
  Except.ok (FilterableAttribute_endswith cls text)

/-- An instance of a `FilterableAttribute` subclass as produced by
`FilterableAttribute.__init__(order_by)`: it stores the direction and the
derived `ascending` flag (`order_by == Direction.ASCENDING`). -/
structure FAInstance where
  name : String
  order_dir : Direction
  ascending : Bool
  deriving DecidableEq, Repr

/-- `FilterableAttribute.asc`: a direction-tagged ascending instance. -/
def FilterableAttribute_asc (cls : AttrClass) : FAInstance :=
  ⟨cls.name, Direction.ascending, true⟩

/-- `FilterableAttribute.desc`: a direction-tagged descending instance. -/
def FilterableAttribute_desc (cls : AttrClass) : FAInstance :=
  ⟨cls.name, Direction.descending, false⟩

/-- The possible arguments to `Query.order_by`: a raw string, a
direction-tagged attribute instance, or a bare attribute class. -/
inductive OrderArg where
  | raw (s : String)
  | inst (i : FAInstance)
  | cls (c : AttrClass)
  deriving DecidableEq, Repr

/-- Lookup of the `ascending` attribute on a bare `FilterableAttribute`
subclass (the class object itself, not an instance): `ascending` is only ever
assigned on instances inside `FilterableAttribute.__init__`, and neither the
class dictionaries nor `BaseAttributeMeta` define a class-level `ascending`
or a `__getattr__` fallback, so the lookup raises `AttributeError`. -/
def classAscending : Except PyError Bool :=
  Except.error (PyError.attributeError "type object has no attribute ascending")

/-- `Query._build_order_by_clause`: a raw string is passed through; a
direction-tagged instance issues `order_by(cased_name, ascending)`; a bare
class first builds `attribute = self._order.asc()` but then evaluates
`self._order.ascending` on the CLASS while assembling the arguments, which
raises before the builder call is issued (the `TypeError` branch for other
inputs is outside the modelled argument type). -/
def build_order_by_clause (casing : String → String) :
    OrderArg → List BuilderEvent × Option PyError
  | OrderArg.raw s => ([BuilderEvent.order_by_raw s], none)
  | OrderArg.inst i => ([BuilderEvent.order_by (casing i.name) i.ascending], none)
  | OrderArg.cls c =>
      let instAttr := FilterableAttribute_asc c
      match classAscending with
      | Except.error e => ([], some e)
      | Except.ok b => ([BuilderEvent.order_by (casing instAttr.name) b], none)

/-- `Query.order_by`: clear the prior order state, store the argument, then
build the order clause. -/
def query_order_by (casing : String → String) (arg : OrderArg) :
    List BuilderEvent × Option PyError :=
  let (evs, err) := build_order_by_clause casing arg
  (BuilderEvent.clear_order :: evs, err)

/-- Recognises an `order_by` builder call (either form). -/
def isOrderByEvent : BuilderEvent → Bool
  | BuilderEvent.order_by _ _ => true
  | BuilderEvent.order_by_raw _ => true
  | _ => false

/-- `query.BulkActionContext` state: the captured query results and the
`_committed` flag (`False` on construction). -/
structure BulkActionContext (α : Type) where
  result : List α
  committed : Bool
  deriving DecidableEq, Repr

/-- `BulkActionContext.commit`: set the committed flag. -/
def BulkActionContext.commit {α : Type} (c : BulkActionContext α) :
    BulkActionContext α :=
  { c with committed := true }

/-- `BulkActionContext._perform_bulk_action`: apply the action to every
captured result, in order. -/
def perform_bulk_action {α β : Type} (action : α → β) (c : BulkActionContext α) :
    List β :=
  c.result.map action

/-- One scoped (`with`-statement) use of a `BulkActionContext`.  `__enter__`
executes the query and captures `results`; the body transforms the context
(it may call `commit`) and may raise an exception; `__exit__(ex_type, ...)`
performs the bulk action if and only if `_committed` is set — it never
inspects the exception information.  Returns the list of action applications
performed on exit together with the exception leaving the scope. -/
def scopedBulkAction {α β : Type} (action : α → β) (results : List α)
    (body : BulkActionContext α → BulkActionContext α × Option PyError) :
    List β × Option PyError :=
  let ctx : BulkActionContext α := ⟨results, false⟩
  let (ctx2, exn) := body ctx
  ((if ctx2.committed then perform_bulk_action action ctx2 else []), exn)

end Office

namespace Office

/-- Helper: a successful compile of a clause implies both of its sides
compiled successfully. -/
theorem build_side_clause_sides_ok (casing : String → String) (l r : Element)
    (op : ChainOperator)
    (h : (build_side casing (Element.clause l op r)).2 = none) :
    (build_side casing l).2 = none ∧ (build_side casing r).2 = none := by
  rcases hL : build_side casing l with ⟨le, errl⟩
  rcases hR : build_side casing r with ⟨re, errr⟩
  cases errl with
  | some err => simp [build_side, hL] at h
  | none =>
      cases errr with
      | some err => simp [build_side, hL, hR] at h
      | none => simp [hL, hR]

/-- Helper: shape of a successfully compiled clause: one group pair around
left, chain, right. -/
theorem build_side_clause_ok (casing : String → String) (l r : Element)
    (op : ChainOperator)
    (hl : (build_side casing l).2 = none) (hr : (build_side casing r).2 = none) :
    build_side casing (Element.clause l op r)
      = (BuilderEvent.open_group :: (build_side casing l).1
          ++ BuilderEvent.chain op :: (build_side casing r).1
          ++ [BuilderEvent.close_group], none) := by
  rcases hL : build_side casing l with ⟨le, errl⟩
  rcases hR : build_side casing r with ⟨re, errr⟩
  rw [hL] at hl
  rw [hR] at hr
  simp at hl hr
  subst hl
  subst hr
  simp [build_side, hL, hR]

/-- Helper: in a successful compile, the number of `open_group` events equals
the number of clause nodes. -/
theorem countP_open_build_side (casing : String → String) :
    ∀ el : Element, (build_side casing el).2 = none →
      List.countP isOpenEvent (build_side casing el).1 = clauseNodes el := by
  intro el
  induction el with
  | attrCls a =>
      intro h
      by_cases hk : a.kind = AttrKind.boolean
      · simp [build_side, hk, buildBooleanExpression, booleanAttributeResolve,
          mkBooleanExpression, clauseNodes, isOpenEvent, List.countP_cons]
      · simp [build_side, hk] at h
  | expr e =>
      intro _
      cases hneg : e.negated <;>
        simp [build_side, buildBooleanExpression, hneg, clauseNodes, isOpenEvent,
          List.countP_cons]
  | clause l op r ihl ihr =>
      intro h
      obtain ⟨hl, hr⟩ := build_side_clause_sides_ok casing l r op h
      rw [build_side_clause_ok casing l r op hl hr]
      simp only [List.countP_cons, List.countP_append]
      rw [ihl hl, ihr hr]
      simp [isOpenEvent, clauseNodes]
      omega

/-- Helper: in a successful compile, the number of `close_group` events equals
the number of clause nodes. -/
theorem countP_close_build_side (casing : String → String) :
    ∀ el : Element, (build_side casing el).2 = none →
      List.countP isCloseEvent (build_side casing el).1 = clauseNodes el := by
  intro el
  induction el with
  | attrCls a =>
      intro h
      by_cases hk : a.kind = AttrKind.boolean
      · simp [build_side, hk, buildBooleanExpression, booleanAttributeResolve,
          mkBooleanExpression, clauseNodes, isCloseEvent, List.countP_cons]
      · simp [build_side, hk] at h
  | expr e =>
      intro _
      cases hneg : e.negated <;>
        simp [build_side, buildBooleanExpression, hneg, clauseNodes, isCloseEvent,
          List.countP_cons]
  | clause l op r ihl ihr =>
      intro h
      obtain ⟨hl, hr⟩ := build_side_clause_sides_ok casing l r op h
      rw [build_side_clause_ok casing l r op hl hr]
      simp only [List.countP_cons, List.countP_append]
      rw [ihl hl, ihr hr]
      simp [isCloseEvent, clauseNodes]
      omega

/-- Helper: in a successful compile, the number of `chain` events equals the
number of clause nodes. -/
theorem countP_chain_build_side (casing : String → String) :
    ∀ el : Element, (build_side casing el).2 = none →
      List.countP isChainEvent (build_side casing el).1 = clauseNodes el := by
  intro el
  induction el with
  | attrCls a =>
      intro h
      by_cases hk : a.kind = AttrKind.boolean
      · simp [build_side, hk, buildBooleanExpression, booleanAttributeResolve,
          mkBooleanExpression, clauseNodes, isChainEvent, List.countP_cons]
      · simp [build_side, hk] at h
  | expr e =>
      intro _
      cases hneg : e.negated <;>
        simp [build_side, buildBooleanExpression, hneg, clauseNodes, isChainEvent,
          List.countP_cons]
  | clause l op r ihl ihr =>
      intro h
      obtain ⟨hl, hr⟩ := build_side_clause_sides_ok casing l r op h
      rw [build_side_clause_ok casing l r op hl hr]
      simp only [List.countP_cons, List.countP_append]
      rw [ihl hl, ihr hr]
      simp [isChainEvent, clauseNodes]
      omega

/-- C1: compiling a `BooleanExpressionClause` wraps the node in exactly one
`open_group`/`close_group` pair; inside the group the left side is compiled,
exactly one `chain(operator)` is issued, then the right side is compiled,
depth-first and left-to-right with no flattening (the sides compile to their
own event lists unchanged); globally, a successful compile issues exactly one
`open_group`, one `close_group` and one `chain` per clause node. -/
theorem clause_compile_events (casing : String → String) (l r : Element)
    (op : ChainOperator)
    (hl : (build_side casing l).2 = none) (hr : (build_side casing r).2 = none) :
    build_side casing (Element.clause l op r)
      = (BuilderEvent.open_group :: (build_side casing l).1
          ++ BuilderEvent.chain op :: (build_side casing r).1
          ++ [BuilderEvent.close_group], none)
  ∧ List.countP isOpenEvent (build_side casing (Element.clause l op r)).1
      = clauseNodes (Element.clause l op r)
  ∧ List.countP isCloseEvent (build_side casing (Element.clause l op r)).1
      = clauseNodes (Element.clause l op r)
  ∧ List.countP isChainEvent (build_side casing (Element.clause l op r)).1
      = clauseNodes (Element.clause l op r) := by
  have hc : (build_side casing (Element.clause l op r)).2 = none := by
    rw [build_side_clause_ok casing l r op hl hr]
  exact ⟨build_side_clause_ok casing l r op hl hr,
    countP_open_build_side casing _ hc, countP_close_build_side casing _ hc,
    countP_chain_build_side casing _ hc⟩

/-- Witness for C1 at the concrete clause
`Subject.contains("invoice") & IsRead`. -/
theorem clause_compile_events_witness :
    (build_side (fun s => s)
        (Element.expr ⟨"subject", QueryFunc.contains, Value.str "invoice", false⟩)).2 = none
  ∧ (build_side (fun s => s)
        (Element.expr ⟨"is_read", QueryFunc.equals, Value.bool true, false⟩)).2 = none
  ∧ (build_side (fun s => s)
        (Element.clause
          (Element.expr ⟨"subject", QueryFunc.contains, Value.str "invoice", false⟩)
          ChainOperator.and_op
          (Element.expr ⟨"is_read", QueryFunc.equals, Value.bool true, false⟩))
      = (BuilderEvent.open_group
          :: (build_side (fun s => s)
              (Element.expr ⟨"subject", QueryFunc.contains, Value.str "invoice", false⟩)).1
          ++ BuilderEvent.chain ChainOperator.and_op
          :: (build_side (fun s => s)
              (Element.expr ⟨"is_read", QueryFunc.equals, Value.bool true, false⟩)).1
          ++ [BuilderEvent.close_group], none)
    ∧ List.countP isOpenEvent
        (build_side (fun s => s)
          (Element.clause
            (Element.expr ⟨"subject", QueryFunc.contains, Value.str "invoice", false⟩)
            ChainOperator.and_op
            (Element.expr ⟨"is_read", QueryFunc.equals, Value.bool true, false⟩))).1
        = clauseNodes
            (Element.clause
              (Element.expr ⟨"subject", QueryFunc.contains, Value.str "invoice", false⟩)
              ChainOperator.and_op
              (Element.expr ⟨"is_read", QueryFunc.equals, Value.bool true, false⟩))
    ∧ List.countP isCloseEvent
        (build_side (fun s => s)
          (Element.clause
            (Element.expr ⟨"subject", QueryFunc.contains, Value.str "invoice", false⟩)
            ChainOperator.and_op
            (Element.expr ⟨"is_read", QueryFunc.equals, Value.bool true, false⟩))).1
        = clauseNodes
            (Element.clause
              (Element.expr ⟨"subject", QueryFunc.contains, Value.str "invoice", false⟩)
              ChainOperator.and_op
              (Element.expr ⟨"is_read", QueryFunc.equals, Value.bool true, false⟩))
    ∧ List.countP isChainEvent
        (build_side (fun s => s)
          (Element.clause
            (Element.expr ⟨"subject", QueryFunc.contains, Value.str "invoice", false⟩)
            ChainOperator.and_op
            (Element.expr ⟨"is_read", QueryFunc.equals, Value.bool true, false⟩))).1
        = clauseNodes
            (Element.clause
              (Element.expr ⟨"subject", QueryFunc.contains, Value.str "invoice", false⟩)
              ChainOperator.and_op
              (Element.expr ⟨"is_read", QueryFunc.equals, Value.bool true, false⟩))) :=
  ⟨rfl, rfl,
    clause_compile_events (fun s => s)
      (Element.expr ⟨"subject", QueryFunc.contains, Value.str "invoice", false⟩)
      (Element.expr ⟨"is_read", QueryFunc.equals, Value.bool true, false⟩)
      ChainOperator.and_op rfl rfl⟩

/-- C2: compiling a leaf expression first issues `on_attribute` with the cased
attribute name; when `negated` is set it issues `negate` exactly twice,
bracketing exactly one comparator call with the expression argument; when
`negated` is unset it issues no `negate` and exactly one comparator call. -/
theorem leaf_compile_events (casing : String → String) (e : BooleanExpression) :
    buildBooleanExpression casing e
      = BuilderEvent.on_attribute (casing e.attr)
          :: (if e.negated then
                [BuilderEvent.negate, BuilderEvent.comparator e.func e.arg,
                  BuilderEvent.negate]
              else [BuilderEvent.comparator e.func e.arg])
  ∧ List.countP isNegateEvent (buildBooleanExpression casing e)
      = (if e.negated then 2 else 0)
  ∧ List.countP isComparatorEvent (buildBooleanExpression casing e) = 1
  ∧ (buildBooleanExpression casing e).head?
      = some (BuilderEvent.on_attribute (casing e.attr)) := by
  refine ⟨rfl, ?_, ?_, rfl⟩ <;>
    cases hneg : e.negated <;>
      simp [buildBooleanExpression, hneg, isNegateEvent, isComparatorEvent,
        List.countP_cons]

/-- C10: during compilation, a side that is a bare Boolean-kind attribute
class is accepted and resolved to the boolean-equals-true leaf, whose
compilation it then equals, with no error raised. -/
theorem side_resolves_boolean_attribute (casing : String → String) (a : AttrClass)
    (h : a.kind = AttrKind.boolean) :
    build_side casing (Element.attrCls a)
      = (buildBooleanExpression casing (booleanAttributeResolve a), none)
  ∧ booleanAttributeResolve a = ⟨a.name, QueryFunc.equals, Value.bool true, false⟩ := by
  refine ⟨?_, rfl⟩
  simp [build_side, h]

/-- Witness for C10 at the concrete Boolean attribute `IsRead`. -/
theorem side_resolves_boolean_attribute_witness :
    (⟨"is_read", AttrKind.boolean⟩ : AttrClass).kind = AttrKind.boolean
  ∧ (build_side (fun s => s) (Element.attrCls ⟨"is_read", AttrKind.boolean⟩)
      = (buildBooleanExpression (fun s => s)
          (booleanAttributeResolve ⟨"is_read", AttrKind.boolean⟩), none)
    ∧ booleanAttributeResolve (⟨"is_read", AttrKind.boolean⟩ : AttrClass)
      = ⟨"is_read", QueryFunc.equals, Value.bool true, false⟩) :=
  ⟨rfl, side_resolves_boolean_attribute (fun s => s) ⟨"is_read", AttrKind.boolean⟩ rfl⟩

/-- C3: negating the boolean-equals-true expression (the resolved form of a
Boolean-kind attribute) does NOT toggle the `negated` flag, contrary to the
claim: its comparator `equals` is in `logical_opposites`, so `negate`
rewrites it to `unequal` and leaves `negated` untouched. -/
theorem negate_boolean_equals_true_rewrites :
    (BooleanExpression.negate ⟨"is_read", QueryFunc.equals, Value.bool true, false⟩).negated
        = false
  ∧ (BooleanExpression.negate ⟨"is_read", QueryFunc.equals, Value.bool true, false⟩).func
        = QueryFunc.unequal :=
  ⟨rfl, rfl⟩

/-- C3 (amended): `negate` rewrites the comparator in place (leaving `negated`
alone) exactly when the comparator is one of the six with a defined opposite;
the comparators that instead toggle `negated` are exactly `contains`,
`startswith` and `endswith` (the boolean-equals-true expression uses `equals`
and is therefore rewritten, not flagged); and double negation restores the
original `(comparator, negated)` state exactly. -/
theorem negate_spec (e : BooleanExpression) :
    (BooleanExpression.negate e
      = match logical_opposites e.func with
        | some f => { e with func := f }
        | none => { e with negated := !e.negated })
  ∧ (logical_opposites e.func = none
      ↔ (e.func = QueryFunc.contains ∨ e.func = QueryFunc.startswith
          ∨ e.func = QueryFunc.endswith))
  ∧ BooleanExpression.negate (BooleanExpression.negate e) = e := by
  obtain ⟨attr, func, arg, neg⟩ := e
  refine ⟨rfl, ?_, ?_⟩
  · cases func <;> simp [logical_opposites]
  · cases func <;> simp [BooleanExpression.negate, logical_opposites]

/-- C4: `~(~A)` for a Boolean-kind attribute does NOT have the same comparator
as the resolved form of `A`: double inversion yields comparator `unequal`
(argument `False`) while `A` resolves to comparator `equals` (argument
`True`). -/
theorem double_invert_comparator_differs :
    (BooleanExpression.negate (booleanAttributeInvert ⟨"is_read", AttrKind.boolean⟩)).func
      ≠ (booleanAttributeResolve ⟨"is_read", AttrKind.boolean⟩).func := by
  decide

/-- C4 (amended): for every Boolean-kind attribute class `a`, `~(~a)` is
behaviourally equivalent to the resolved form of `a` (they evaluate alike on
every boolean field value) and carries the same `negated` flag, but its
comparator is the logical opposite `unequal` with argument `False`, not the
same comparator `equals` with argument `True`. -/
theorem double_invert_equiv (a : AttrClass) :
    (BooleanExpression.negate (booleanAttributeInvert a)).negated
        = (booleanAttributeResolve a).negated
  ∧ (BooleanExpression.negate (booleanAttributeInvert a)).func = QueryFunc.unequal
  ∧ (BooleanExpression.negate (booleanAttributeInvert a)).arg = Value.bool false
  ∧ ∀ v : Bool,
      BooleanExpression.evalBool (BooleanExpression.negate (booleanAttributeInvert a)) v
        = BooleanExpression.evalBool (booleanAttributeResolve a) v := by
  refine ⟨rfl, rfl, rfl, ?_⟩
  intro v
  cases v <;> rfl

/-- C5: evaluating `Messages == "x"` on a NonFilterable attribute class does
NOT raise — it silently evaluates to `False`, because `==` dispatch bypasses
`NonFilterableMeta.__getattr__` — while ordinary attribute access (such as
`Messages.contains`) does raise the AttributeError immediately, as the
metaclass docstring promises for every filter misuse. -/
theorem nonfilterable_eq_returns_false :
    nonFilterableEq (Value.str "x") = Except.ok false
  ∧ nonFilterableGetattr "body" "contains"
      = Except.error (PyError.attributeError
          "This attribute cannot be used in the filter/where clause of a query.")
  ∧ nonFilterableGetattr "body" "name" = Except.ok "body" :=
  ⟨rfl, rfl, rfl⟩

/-- C6 counterexample: calling `contains` on a Boolean-kind attribute (and
`startswith` on an Enumerative-kind one) succeeds and returns a
`BooleanExpression` — no type error is raised, contrary to the claim. -/
theorem contains_on_boolean_attribute_ok :
    callContains ⟨"is_read", AttrKind.boolean⟩ (Value.str "x")
      = Except.ok ⟨"is_read", QueryFunc.contains, Value.str "x", false⟩
  ∧ callStartswith ⟨"importance", AttrKind.enumerative⟩ (Value.str "hi")
      = Except.ok ⟨"importance", QueryFunc.startswith, Value.str "hi", false⟩ :=
  ⟨rfl, rfl⟩

/-- C6 (amended): the substring comparators `contains`, `startswith` and
`endswith` are classmethods of `FilterableAttribute` inherited unchanged by
every attribute kind — plain, Boolean and Enumerative alike — so calling them
on any kind succeeds with the corresponding comparator expression and never
raises a type error. -/
theorem substring_comparators_all_kinds (cls : AttrClass) (item : Value) :
    callContains cls item
      = Except.ok ⟨cls.name, QueryFunc.contains, item, false⟩
  ∧ callStartswith cls item
      = Except.ok ⟨cls.name, QueryFunc.startswith, item, false⟩
  ∧ callEndswith cls item
      = Except.ok ⟨cls.name, QueryFunc.endswith, item, false⟩ :=
  ⟨rfl, rfl, rfl⟩

/-- C7 counterexample: `expr & IsRead` — an `&` application whose left operand
is a `BooleanExpression` and whose right operand is a Boolean-kind attribute
class — produces a clause whose right child is the unresolved attribute class
itself, refuting the claim that no child of a constructed clause is an
unresolved attribute class. -/
theorem clause_child_unresolved_attribute :
    opCombine ChainOperator.and_op
        (Element.expr ⟨"subject", QueryFunc.contains, Value.str "invoice", false⟩)
        (Element.attrCls ⟨"is_read", AttrKind.boolean⟩)
      = Except.ok (Element.clause
          (Element.expr ⟨"subject", QueryFunc.contains, Value.str "invoice", false⟩)
          ChainOperator.and_op
          (Element.attrCls ⟨"is_read", AttrKind.boolean⟩))
  ∧ isUnresolvedAttr (Element.attrCls ⟨"is_read", AttrKind.boolean⟩) = true :=
  ⟨rfl, rfl⟩

/-- C7 (amended): only when the LEFT operand of `&`/`|` is an attribute class
does the metaclass operator resolve both operands — the resulting clause then
has no unresolved attribute-class child; when the left operand is an
expression or clause, `BaseExpressionElement.__and__/__or__` stores the right
operand as-is, so a bare attribute class on the right remains an unresolved
child (it is resolved only later, during compilation). -/
theorem opCombine_children (op : ChainOperator) (a b : Element) :
    (∀ ac cl, a = Element.attrCls ac → opCombine op a b = Except.ok cl →
      ∃ l r, cl = Element.clause l op r
        ∧ isUnresolvedAttr l = false ∧ isUnresolvedAttr r = false)
  ∧ (isUnresolvedAttr a = false →
      opCombine op a b = Except.ok (Element.clause a op b)) := by
  constructor
  · rintro ac cl rfl hok
    by_cases hk : ac.kind = AttrKind.boolean
    · cases b with
      | attrCls bc =>
          by_cases hbk : bc.kind = AttrKind.boolean
          · simp [opCombine, Element.resolve, hk, hbk] at hok
            subst hok
            exact ⟨_, _, rfl, rfl, rfl⟩
          · simp [opCombine, Element.resolve, hk, hbk] at hok
      | expr e' =>
          simp [opCombine, Element.resolve, hk] at hok
          subst hok
          exact ⟨_, _, rfl, rfl, rfl⟩
      | clause l' op' r' =>
          simp [opCombine, Element.resolve, hk] at hok
          subst hok
          exact ⟨_, _, rfl, rfl, rfl⟩
    · simp [opCombine, Element.resolve, hk] at hok
  · intro ha
    cases a with
    | attrCls ac => simp [isUnresolvedAttr] at ha
    | expr e' => rfl
    | clause l' op' r' => rfl

/-- Witness for C7 (amended): `IsRead & IsDraft` (attribute-class left
operand) yields a clause with both children resolved. -/
theorem opCombine_children_witness :
    ∃ l r,
      Element.clause
          (Element.expr (booleanAttributeResolve ⟨"is_read", AttrKind.boolean⟩))
          ChainOperator.and_op
          (Element.expr (booleanAttributeResolve ⟨"is_draft", AttrKind.boolean⟩))
        = Element.clause l ChainOperator.and_op r
      ∧ isUnresolvedAttr l = false ∧ isUnresolvedAttr r = false :=
  (opCombine_children ChainOperator.and_op
      (Element.attrCls ⟨"is_read", AttrKind.boolean⟩)
      (Element.attrCls ⟨"is_draft", AttrKind.boolean⟩)).1
    ⟨"is_read", AttrKind.boolean⟩ _ rfl rfl

/-- C8: calling `order_by` with a bare attribute class clears the prior order
state but then raises AttributeError while evaluating `self._order.ascending`
on the class (the ascending `asc()` instance the code just built is ignored),
so no `order_by` builder call is ever issued — the code contradicts the
documented default-to-ascending behaviour. -/
theorem order_by_bare_class_attribute_error :
    query_order_by (fun s => s) (OrderArg.cls ⟨"subject", AttrKind.plain⟩)
      = ([BuilderEvent.clear_order],
          some (PyError.attributeError "type object has no attribute ascending"))
  ∧ List.countP isOrderByEvent
      (query_order_by (fun s => s) (OrderArg.cls ⟨"subject", AttrKind.plain⟩)).1 = 0
  ∧ query_order_by (fun s => s)
        (OrderArg.inst (FilterableAttribute_desc ⟨"subject", AttrKind.plain⟩))
      = ([BuilderEvent.clear_order, BuilderEvent.order_by "subject" false], none) :=
  ⟨rfl, rfl, rfl⟩

/-- C9 counterexample: a scope in which `commit()` is called and which then
exits via an exception still applies the bulk action to every captured result
— `__exit__` only consults the committed flag, never the exception — refuting
the claim that an exceptional exit applies the action to no result. -/
theorem bulk_action_runs_on_exception_exit :
    scopedBulkAction (fun n : Nat => n + 1) [0]
        (fun c => (BulkActionContext.commit c, some (PyError.valueError "boom")))
      = ([1], some (PyError.valueError "boom")) :=
  rfl

/-- C9 (amended): on leaving the scope the bulk action is applied to the
captured results exactly when `commit()` was called during the scope,
regardless of whether the scope exits normally or with an exception: the
performed actions are independent of the exception component of the body. -/
theorem bulk_action_iff_committed {α β : Type} (action : α → β) (results : List α)
    (f : BulkActionContext α → BulkActionContext α) (e₁ e₂ : Option PyError) :
    (scopedBulkAction action results (fun c => (f c, e₁))).1
      = (if (f ⟨results, false⟩).committed
         then (f ⟨results, false⟩).result.map action else [])
  ∧ (scopedBulkAction action results (fun c => (f c, e₁))).1
      = (scopedBulkAction action results (fun c => (f c, e₂))).1 :=
  ⟨rfl, rfl⟩

end Office
